import Mathlib

/-!
Verification of the COPD-CVD risk prediction app (src/app.py).

The app's logical core is embedded shallowly:
machine floats are modelled by the rationals, Python dict indexing
(which raises KeyError on a missing key) by association-list lookup
returning Option, and the straight-line submission handler by an
Option-valued pipeline.  All definitions are translated directly from
src/app.py; the one exception, the shape validation performed inside
the external predict_proba library call, is modelled from the spec and
marked as such in its doc comment.
-/

namespace COPDApp

/-- Training-data age mean, src/app.py line 7 (the float literal 65.2599). -/
def age_mean : ℚ := 652599 / 10000

/-- Training-data age standard deviation, src/app.py line 8 (the float literal 9.0775). -/
def age_std : ℚ := 90775 / 10000

/-- src/app.py lines 10-11: def z_score(x, mean, std): return (x - mean) / std. -/
def z_score (x mean std : ℚ) : ℚ := (x - mean) / std

/-- src/app.py line 75: the six IADL option strings, built exactly as the
Python list comprehension builds them from range(6). -/
def iadl_options : List String :=
  (List.range 6).map (fun i => toString i ++ " items with difficulties")

/-- src/app.py line 76: the dict mapping each IADL option to its index.
Python dict indexing is modelled by List.lookup (none models KeyError). -/
def iadl_map : List (String × ℚ) :=
  iadl_options.enum.map (fun p => (p.2, (p.1 : ℚ)))

/-- src/app.py line 80: gender_map = Female to 0, Male to 1. -/
def gender_map : List (String × ℚ) := [("Female", 0), ("Male", 1)]

/-- src/app.py lines 83-86: the eight yes/no feature names. -/
def yn_features : List String :=
  ["Residence", "Hypertension", "Dyslipidemia", "Digestive disease",
   "Vigorous activity", "Moderate activity", "Disability status", "Tap water access"]

/-- src/app.py line 87: yn_map = No to 0, Yes to 1. -/
def yn_map : List (String × ℚ) := [("No", 0), ("Yes", 1)]

/-- src/app.py line 90: the five health-rating option strings. -/
def health_options : List String :=
  ["Very poor", "Poor", "Average", "Good", "Very Good"]

/-- src/app.py line 91: health_map maps each option to its index plus one. -/
def health_map : List (String × ℚ) :=
  health_options.enum.map (fun p => (p.2, (p.1 : ℚ) + 1))

/-- The user-facing form state of one submission: one selection string per
categorical field (yn gives the selection for each yes/no feature name,
as the dict user_yn does on src/app.py line 88) and the age number. -/
structure RawInput where
  iadl : String
  gender : String
  yn : String → String
  health : String
  hearing : String
  age : ℚ

/-- src/app.py line 109: the dict comprehension building one (feature, code)
pair per yes/no feature, in feature order; a selection absent from yn_map is
a KeyError, modelled by none. -/
def encode_yn (r : RawInput) : List String → Option (List (String × ℚ))
  | [] => some []
  | feat :: rest => do
    let v ← yn_map.lookup (r.yn feat)
    let vs ← encode_yn r rest
    some ((feat, v) :: vs)

/-- src/app.py lines 105-112: the data dict of one submission, as an ordered
association list.  Each dict indexing that can raise KeyError is an Option
lookup, so the whole construction is none exactly when some selection is
outside its table. -/
def prepareData (r : RawInput) : Option (List (String × ℚ)) := do
  let iv ← iadl_map.lookup r.iadl
  let gv ← gender_map.lookup r.gender
  let ynl ← encode_yn r yn_features
  let hv ← health_map.lookup r.health
  let hrv ← health_map.lookup r.hearing
  some ([("IADL score", iv), ("Gender", gv)] ++ ynl ++
        [("Self rated health", hv), ("Hearing", hrv),
         ("Age", z_score r.age age_mean age_std)])

/-- src/app.py line 115: the row [data[f] for f in features], evaluated left
to right; a manifest name with no binding in data is a KeyError (none). -/
def buildVector (data : List (String × ℚ)) : List String → Option (List ℚ)
  | [] => some []
  | f :: fs => do
    let v ← data.lookup f
    let vs ← buildVector data fs
    some (v :: vs)

/-- The field names of the data dict, in insertion order
(src/app.py lines 105-112). -/
def dataFieldNames : List String :=
  ["IADL score", "Gender"] ++ yn_features ++ ["Self rated health", "Hearing", "Age"]

/-- The submission handler of src/app.py lines 103-116 up to the scorer call:
encode the selections, build the manifest-ordered row, and only then apply
the external scorer.  none models the handler dying on an exception before
any score is produced. -/
def runPipeline (r : RawInput) (features : List String)
    (scorer : List ℚ → ℚ) : Option ℚ := do
  let data ← prepareData r
  let row ← buildVector data features
  some (scorer row)

/-- The three risk tiers selected by the branches of src/app.py
lines 129-160. -/
inductive RiskTier where
  | Low
  | Moderate
  | High
deriving DecidableEq

/-- src/app.py lines 129, 144, 159: if risk_prob < 0.3 then the Low branch,
elif risk_prob <= 0.7 then the Moderate branch, else the High branch. -/
def tier (p : ℚ) : RiskTier :=
  if p < 3/10 then .Low else if p ≤ 7/10 then .Moderate else .High

/-- The same if/elif/else chain with the two comparison outcomes abstracted
as Booleans: lt03 is the outcome of risk_prob < 0.3 and le07 that of
risk_prob <= 0.7.  Every machine-float probability, NaN included, determines
one such pair (NaN gives false for both comparisons). -/
def tierOfBranches (lt03 le07 : Bool) : RiskTier :=
  if lt03 then .Low else if le07 then .Moderate else .High

/-- The guard actually tested by the first branch (src/app.py line 129). -/
def branchLow (lt03 : Bool) (_le07 : Bool) : Bool := lt03

/-- The condition under which the elif branch runs (src/app.py line 144):
the first guard failed and the second holds. -/
def branchModerate (lt03 le07 : Bool) : Bool := !lt03 && le07

/-- The condition under which the else branch runs (src/app.py line 159):
both guards failed. -/
def branchHigh (lt03 le07 : Bool) : Bool := !lt03 && !le07

/-- C1: tiering is the pure threshold function with both boundaries going to
Moderate, and the four boundary probes land as the spec says. -/
theorem tier_thresholds :
    (∀ p : ℚ, (p < 3/10 → tier p = .Low) ∧
      (3/10 ≤ p → p ≤ 7/10 → tier p = .Moderate) ∧
      (7/10 < p → tier p = .High)) ∧
    tier (29/100) = .Low ∧ tier (30/100) = .Moderate ∧
    tier (70/100) = .Moderate ∧ tier (71/100) = .High := by
  refine ⟨fun p => ⟨fun h => ?_, fun h1 h2 => ?_, fun h => ?_⟩, by norm_num [tier],
    by norm_num [tier], by norm_num [tier], by norm_num [tier]⟩
  · simp [tier, h]
  · have : ¬ p < 3/10 := not_lt.mpr h1
    simp [tier, this, h2]
  · have h1 : ¬ p < 3/10 := not_lt.mpr (le_trans (by norm_num) h.le)
    have h2 : ¬ p ≤ 7/10 := not_le.mpr h
    simp [tier, h1, h2]

/-- Witness for C1 at the concrete probability one half. -/
theorem tier_thresholds_witness : tier (1/2) = .Moderate :=
  (tier_thresholds.1 (1/2)).2.1 (by norm_num) (by norm_num)

/-- C2: the encoded age is (age - 65.2599) / 9.0775 with the fixed constants,
the map is injective with an explicit linear inverse, and the training mean
itself encodes to exactly 0. -/
theorem age_encoding :
    (∀ a : ℚ, z_score a age_mean age_std = (a - 652599/10000) / (90775/10000)) ∧
    (∀ a b : ℚ, z_score a age_mean age_std = z_score b age_mean age_std → a = b) ∧
    (∀ y : ℚ, z_score (y * age_std + age_mean) age_mean age_std = y) ∧
    z_score age_mean age_mean age_std = 0 := by
  have hstd : age_std ≠ 0 := by norm_num [age_std]
  refine ⟨fun a => rfl, fun a b h => ?_, fun y => ?_, ?_⟩
  · unfold z_score at h
    field_simp at h
    linarith
  · unfold z_score
    field_simp
  · simp [z_score]

/-- Witness for C2: the injectivity hypothesis discharged at the concrete
age 70, plus the exact zero at the mean. -/
theorem age_encoding_witness :
    (70:ℚ) = 70 ∧ z_score age_mean age_mean age_std = 0 :=
  ⟨age_encoding.2.1 70 70 rfl, age_encoding.2.2.2⟩

/-- The IADL table evaluated: option i maps to the rational i. -/
theorem iadl_map_eq :
    iadl_map = [("0 items with difficulties", 0), ("1 items with difficulties", 1),
      ("2 items with difficulties", 2), ("3 items with difficulties", 3),
      ("4 items with difficulties", 4), ("5 items with difficulties", 5)] := by
  rfl

/-- The health-rating table evaluated: the five options map to 1..5. -/
theorem health_map_eq :
    health_map = [("Very poor", 1), ("Poor", 2), ("Average", 3), ("Good", 4),
      ("Very Good", 5)] := by
  norm_num [health_map, health_options, List.enum, List.enumFrom]

/-- C3: every categorical field goes through a fixed one-to-one table.
Listed: the six IADL options map to 0..5, Female to 0 and Male to 1, No to 0
and Yes to 1, the five rating options to 1..5 (health_map is the single table
used for both Self-rated Health and Hearing in prepareData, as on src/app.py
lines 110-111); the Nodup facts state that each table is one-to-one in both
directions. -/
theorem enumeration_tables :
    iadl_map.lookup "0 items with difficulties" = some 0 ∧
    iadl_map.lookup "1 items with difficulties" = some 1 ∧
    iadl_map.lookup "2 items with difficulties" = some 2 ∧
    iadl_map.lookup "3 items with difficulties" = some 3 ∧
    iadl_map.lookup "4 items with difficulties" = some 4 ∧
    iadl_map.lookup "5 items with difficulties" = some 5 ∧
    gender_map.lookup "Female" = some 0 ∧
    gender_map.lookup "Male" = some 1 ∧
    yn_map.lookup "No" = some 0 ∧
    yn_map.lookup "Yes" = some 1 ∧
    health_map.lookup "Very poor" = some 1 ∧
    health_map.lookup "Poor" = some 2 ∧
    health_map.lookup "Average" = some 3 ∧
    health_map.lookup "Good" = some 4 ∧
    health_map.lookup "Very Good" = some 5 ∧
    (iadl_map.map Prod.fst).Nodup ∧ (iadl_map.map Prod.snd).Nodup ∧
    (gender_map.map Prod.fst).Nodup ∧ (gender_map.map Prod.snd).Nodup ∧
    (yn_map.map Prod.fst).Nodup ∧ (yn_map.map Prod.snd).Nodup ∧
    (health_map.map Prod.fst).Nodup ∧ (health_map.map Prod.snd).Nodup := by
  rw [iadl_map_eq, health_map_eq]
  refine ⟨rfl, rfl, rfl, rfl, rfl, rfl, rfl, rfl, rfl, rfl, rfl, rfl, rfl, rfl, rfl,
    ?_, ?_, ?_, ?_, ?_, ?_, ?_, ?_⟩ <;>
    norm_num [gender_map, yn_map, List.nodup_cons] <;> decide

/-- The end-to-end scenario submission of the spec: first IADL option,
Female, every yes/no selection No, both ratings Average, age equal to the
training mean. -/
def scenarioInput : RawInput where
  iadl := "0 items with difficulties"
  gender := "Female"
  yn := fun _ => "No"
  health := "Average"
  hearing := "Average"
  age := age_mean

/-- The data dict the encoder produces for scenarioInput. -/
def scenarioData : List (String × ℚ) :=
  [("IADL score", 0), ("Gender", 0), ("Residence", 0), ("Hypertension", 0),
   ("Dyslipidemia", 0), ("Digestive disease", 0), ("Vigorous activity", 0),
   ("Moderate activity", 0), ("Disability status", 0), ("Tap water access", 0),
   ("Self rated health", 3), ("Hearing", 3), ("Age", 0)]

/-- Evaluating the encoder on the scenario submission. -/
theorem scenarioData_eq : prepareData scenarioInput = some scenarioData := by
  have h1 : iadl_map.lookup scenarioInput.iadl = some 0 := by
    rw [iadl_map_eq]; rfl
  have h2 : gender_map.lookup scenarioInput.gender = some 0 := rfl
  have h3 : encode_yn scenarioInput yn_features =
      some [("Residence", 0), ("Hypertension", 0), ("Dyslipidemia", 0),
        ("Digestive disease", 0), ("Vigorous activity", 0),
        ("Moderate activity", 0), ("Disability status", 0),
        ("Tap water access", 0)] := rfl
  have h4 : health_map.lookup scenarioInput.health = some 3 := by
    rw [health_map_eq]; rfl
  have h5 : health_map.lookup scenarioInput.hearing = some 3 := by
    rw [health_map_eq]; rfl
  have hz : z_score scenarioInput.age age_mean age_std = 0 := by
    norm_num [z_score, scenarioInput, age_mean, age_std]
  unfold prepareData
  rw [h1, h2, h3, h4, h5]
  simp only [Option.bind_eq_bind, Option.some_bind]
  rw [hz]; rfl

/-- C4: when every manifest name has a binding in the encoded data dict, the
row built from the manifest exists, has the manifest's length, and its entry
at each index is exactly the encoding bound to the manifest name at that
index. -/
theorem encoder_matches_manifest (r : RawInput) (data : List (String × ℚ))
    (features : List String) (_hd : prepareData r = some data)
    (h : ∀ f ∈ features, (data.lookup f).isSome) :
    ∃ v, buildVector data features = some v ∧ v.length = features.length ∧
      ∀ i : ℕ, v.get? i = (features.get? i).bind fun f => data.lookup f := by
  induction features with
  | nil => exact ⟨[], rfl, rfl, fun i => by cases i <;> rfl⟩
  | cons f fs ih =>
    obtain ⟨v0, hv0⟩ := Option.isSome_iff_exists.mp (h f (by simp))
    obtain ⟨vs, hvs, hlen, hget⟩ := ih (fun g hg => h g (by simp [hg]))
    refine ⟨v0 :: vs, ?_, by simp [hlen], fun i => ?_⟩
    · simp [buildVector, hv0, hvs]
    · cases i with
      | zero => simp [hv0]
      | succ n => simpa using hget n

/-- Witness for C4: the scenario submission against the full field-name
manifest. -/
theorem encoder_matches_manifest_witness :
    ∃ v, buildVector scenarioData dataFieldNames = some v ∧
      v.length = dataFieldNames.length ∧
      ∀ i : ℕ, v.get? i = (dataFieldNames.get? i).bind
        fun f => scenarioData.lookup f :=
  encoder_matches_manifest scenarioInput scenarioData dataFieldNames
    scenarioData_eq (by decide)

/-- A key outside the association list's key column looks up to none. -/
theorem lookup_eq_none_of_not_mem_keys (data : List (String × ℚ)) (f : String)
    (h : f ∉ data.map Prod.fst) : data.lookup f = none := by
  induction data with
  | nil => rfl
  | cons p ps ih =>
    simp only [List.map_cons, List.mem_cons, not_or] at h
    have hne : (f == p.1) = false := beq_false_of_ne h.1
    simpa [List.lookup, hne] using ih h.2

/-- The keys of the encoded yes/no pairs are the feature names themselves. -/
theorem encode_yn_keys (r : RawInput) :
    ∀ (fs : List String) (l : List (String × ℚ)),
      encode_yn r fs = some l → l.map Prod.fst = fs := by
  intro fs
  induction fs with
  | nil =>
    intro l h
    simp [encode_yn] at h
    simp [← h]
  | cons f fs ih =>
    intro l h
    simp only [encode_yn, Option.bind_eq_bind, Option.bind_eq_some] at h
    obtain ⟨v, -, vs, hvs, heq⟩ := h
    obtain rfl := Option.some.inj heq
    simp [ih vs hvs]

/-- The encoded data dict always binds exactly the thirteen field names of
src/app.py lines 105-112, in insertion order. -/
theorem prepareData_keys (r : RawInput) (data : List (String × ℚ))
    (h : prepareData r = some data) : data.map Prod.fst = dataFieldNames := by
  simp only [prepareData, Option.bind_eq_bind, Option.bind_eq_some] at h
  obtain ⟨iv, -, gv, -, ynl, hynl, hv, -, hrv, -, heq⟩ := h
  obtain rfl := Option.some.inj heq
  simp [dataFieldNames, encode_yn_keys r yn_features ynl hynl]

/-- When some yes/no selection is outside yn_map, the dict comprehension
fails. -/
theorem encode_yn_none (r : RawInput) :
    ∀ fs : List String, (∃ f ∈ fs, yn_map.lookup (r.yn f) = none) →
      encode_yn r fs = none := by
  intro fs
  induction fs with
  | nil => rintro ⟨f, hf, _⟩; cases hf
  | cons g gs ih =>
    rintro ⟨f, hf, hnone⟩
    rcases List.mem_cons.mp hf with rfl | hf
    · simp [encode_yn, hnone]
    · cases hg : yn_map.lookup (r.yn g) with
      | none => simp [encode_yn, hg]
      | some v => simp [encode_yn, hg, ih ⟨f, hf, hnone⟩]

/-- When some manifest name has no binding, the row construction fails. -/
theorem buildVector_none (data : List (String × ℚ)) :
    ∀ features : List String, (∃ f ∈ features, data.lookup f = none) →
      buildVector data features = none := by
  intro features
  induction features with
  | nil => rintro ⟨f, hf, _⟩; cases hf
  | cons g gs ih =>
    rintro ⟨f, hf, hnone⟩
    rcases List.mem_cons.mp hf with rfl | hf
    · simp [buildVector, hnone]
    · cases hg : data.lookup g with
      | none => simp [buildVector, hg]
      | some v => simp [buildVector, hg, ih ⟨f, hf, hnone⟩]

/-- C5: when any enum selection is outside its table, or the manifest names
a field with no defined mapping, the pipeline produces no score, whatever
the external scorer is — the scorer is never consulted because the Option
chain dies before reaching it. -/
theorem mapping_failure_no_score (r : RawInput) (features : List String)
    (h : iadl_map.lookup r.iadl = none ∨ gender_map.lookup r.gender = none ∨
      (∃ f ∈ yn_features, yn_map.lookup (r.yn f) = none) ∨
      health_map.lookup r.health = none ∨ health_map.lookup r.hearing = none ∨
      (∃ f ∈ features, f ∉ dataFieldNames)) :
    ∀ scorer : List ℚ → ℚ, runPipeline r features scorer = none := by
  intro scorer
  rcases h with h | h | h | h | h | h
  · simp [runPipeline, prepareData, h]
  · simp [runPipeline, prepareData, h]
  · simp [runPipeline, prepareData, encode_yn_none r yn_features h]
  · simp [runPipeline, prepareData, h]
  · simp [runPipeline, prepareData, h]
  · obtain ⟨f, hf, hnot⟩ := h
    cases hp : prepareData r with
    | none => simp [runPipeline, hp]
    | some data =>
      have hkeys := prepareData_keys r data hp
      have hnone : data.lookup f = none :=
        lookup_eq_none_of_not_mem_keys data f (hkeys ▸ hnot)
      simp [runPipeline, hp, buildVector_none data features ⟨f, hf, hnone⟩]

/-- Witness for C5: a submission whose gender selection is outside
gender_map produces no score. -/
theorem mapping_failure_no_score_witness :
    runPipeline
      { iadl := "0 items with difficulties", gender := "Other",
        yn := fun _ => "No", health := "Average", hearing := "Average",
        age := 70 }
      dataFieldNames (fun _ => 1/2) = none :=
  mapping_failure_no_score _ dataFieldNames
    (Or.inr (Or.inl (by decide))) (fun _ => 1/2)

/-- The adapter's error kind for a frame whose shape disagrees with the
manifest. -/
inductive AdapterError where
  | ValidationError
deriving DecidableEq

/-- The one-row DataFrame built on src/app.py line 115: a list of column
names and the single row of values. -/
structure Frame where
  columns : List String
  row : List ℚ

/-- Modelled from the spec: the Classifier Adapter's shape validation.
src/app.py line 116 calls the external predict_proba directly, and the
check that the row's length and column order match the manifest happens
inside that external library call, so it is not code under src/.  Per the
spec, the adapter validates the feature vector's length and order against
the manifest before delegating to the external scorer, and reports a
mismatch as a ValidationError value — an ordinary rejection of the
submission, not a crash of the process. -/
def checkedPredict (manifest : List String) (scorer : List ℚ → ℚ)
    (df : Frame) : Except AdapterError ℚ :=
  if df.columns = manifest ∧ df.row.length = manifest.length then
    .ok (scorer df.row)
  else
    .error .ValidationError

/-- C6: the adapter rejects any frame whose columns or row length disagree
with the manifest, returning ValidationError as a value (the process
continues), and delegates a well-shaped frame to the external scorer
unchanged. -/
theorem adapter_shape_validation (manifest : List String)
    (scorer : List ℚ → ℚ) (df : Frame) :
    (¬ (df.columns = manifest ∧ df.row.length = manifest.length) →
      checkedPredict manifest scorer df = .error .ValidationError) ∧
    (df.columns = manifest → df.row.length = manifest.length →
      checkedPredict manifest scorer df = .ok (scorer df.row)) := by
  constructor
  · intro h
    simp [checkedPredict, h]
  · intro h1 h2
    simp [checkedPredict, h1, h2]

/-- Witness for C6: a frame with the wrong column name is rejected. -/
theorem adapter_shape_validation_witness :
    checkedPredict ["Age"] (fun _ => 1/2)
      { columns := ["Gender"], row := [0] } = .error .ValidationError :=
  (adapter_shape_validation ["Age"] (fun _ => 1/2)
    { columns := ["Gender"], row := [0] }).1 (by decide)

/-- src/app.py line 95: st.number_input with min_value 0.0, step 1.0 and no
max_value argument, so the widget accepts exactly the values at or above 0. -/
def ageAccepted (x : ℚ) : Bool := decide (0 ≤ x)

/-- C7 counterexample: the claim that the form interface imposes an upper
bound on the accepted age is false — no bound dominates every accepted
value, since every value at or above 0 is accepted. -/
theorem age_upper_bound_counterexample :
    ¬ ∃ B : ℚ, ∀ x : ℚ, ageAccepted x = true → x ≤ B := by
  rintro ⟨B, hB⟩
  have h := hB (max B 0 + 1) (by
    simp only [ageAccepted, decide_eq_true_eq]
    positivity)
  have h2 := le_max_left B 0
  linarith

/-- C7 amended: the form accepts an age exactly when it is at least 0, and
above every candidate bound there is still an accepted age — no upper bound
is imposed. -/
theorem age_accepts_nonneg :
    (∀ x : ℚ, ageAccepted x = true ↔ 0 ≤ x) ∧
    ∀ B : ℚ, ∃ x : ℚ, ageAccepted x = true ∧ B < x := by
  constructor
  · intro x
    simp [ageAccepted]
  · intro B
    refine ⟨max B 0 + 1, ?_, ?_⟩
    · simp only [ageAccepted, decide_eq_true_eq]
      positivity
    · have h2 := le_max_left B 0
      linarith

/-- Witness for C7 amended: the age 70 is accepted. -/
theorem age_accepts_nonneg_witness : ageAccepted 70 = true :=
  (age_accepts_nonneg.1 70).mpr (by norm_num)

/-- C8: the end-to-end scenario — first IADL option, Female, all yes/no
fields No, both ratings Average, age 65.2599 — encodes without failure,
with encoded age exactly 0, IADL 0, Gender 0, every yes/no indicator 0,
health 3, hearing 3; building the row over the full field-name manifest
also succeeds. -/
theorem scenario_encoding :
    prepareData scenarioInput = some scenarioData ∧
    z_score scenarioInput.age age_mean age_std = 0 ∧
    scenarioData.lookup "IADL score" = some 0 ∧
    scenarioData.lookup "Gender" = some 0 ∧
    (yn_features.all fun f => scenarioData.lookup f == some 0) = true ∧
    scenarioData.lookup "Self rated health" = some 3 ∧
    scenarioData.lookup "Hearing" = some 3 ∧
    scenarioData.lookup "Age" = some 0 ∧
    (buildVector scenarioData dataFieldNames).isSome = true := by
  refine ⟨scenarioData_eq, ?_, rfl, rfl, by decide, rfl, rfl, rfl, by decide⟩
  norm_num [z_score, scenarioInput, age_mean, age_std]

/-- One sub-recommendation block of the advice section: icon reference,
bold heading, and the body lines passed to st.write. -/
structure AdviceItem where
  icon : String
  heading : String
  body : String
deriving DecidableEq

/-- One tier's advice: the banner message and its three sub-recommendation
columns. -/
structure AdviceBundle where
  banner : String
  items : List AdviceItem
deriving DecidableEq

/-- src/app.py lines 129-173: the static content rendered by each branch of
the tiered-recommendations section. -/
def advice : RiskTier → AdviceBundle
  | .Low =>
    { banner := "🟢 Low Risk: Maintain current healthy habits and regular monitoring."
      items :=
        [{ icon := "https://img.icons8.com/color/96/000000/running.png"
           heading := "Exercise Maintenance"
           body := "- 30 minutes of moderate exercise daily - Activities like walking or tai chi." },
         { icon := "https://img.icons8.com/color/96/000000/vegetarian-food.png"
           heading := "Balanced Nutrition"
           body := "- High fiber, low salt and fat diet - Include vegetables, whole grains, and lean protein." },
         { icon := "https://img.icons8.com/color/96/000000/heart-monitor.png"
           heading := "Routine Monitoring"
           body := "- Monthly blood pressure and heart rate checks - Log and observe any anomalies." }] }
  | .Moderate =>
    { banner := "🟡 Moderate Risk: Enhance self-management and consult healthcare providers regularly."
      items :=
        [{ icon := "https://img.icons8.com/color/96/000000/yoga.png"
           heading := "Enhanced Exercise"
           body := "- 40 minutes of moderate to vigorous aerobic exercise daily - Incorporate resistance training like bands." },
         { icon := "https://img.icons8.com/color/96/000000/meal.png"
           heading := "Nutritional Adjustment"
           body := "- Limit processed foods and sugars - Increase omega-3 rich foods." },
         { icon := "https://img.icons8.com/color/96/000000/doctor-male.png"
           heading := "Regular Follow-up"
           body := "- Quarterly checks: blood pressure, lipid panel, ECG - Discuss possible medication adjustments." }] }
  | .High =>
    { banner := "🔴 High Risk: Seek immediate medical evaluation for specialized cardiovascular assessment."
      items :=
        [{ icon := "https://img.icons8.com/color/96/000000/stethoscope.png"
           heading := "Specialized Testing"
           body := "- Comprehensive cardiovascular tests: echocardiography, coronary CT - Vascular function and inflammation marker assessment." },
         { icon := "https://img.icons8.com/color/96/000000/pill.png"
           heading := "Medication Management"
           body := "- Adhere to antihypertensive and statin therapy - Monitor for side effects and efficacy." },
         { icon := "https://img.icons8.com/color/96/000000/no-smoking.png"
           heading := "Lifestyle Intervention"
           body := "- Cease smoking and avoid secondhand smoke - Maintain regular sleep schedule and stress management." }] }

/-- C9: the advice resolver is total on the three-valued tier type (so no
tier causes an error), deterministic (it is a pure function, so repeated
application to the same tier gives identical content), and every tier's
bundle is non-empty: a non-empty banner and exactly three items, each with
a non-empty heading and body. -/
theorem advice_total_deterministic :
    ∀ t : RiskTier, advice t = advice t ∧ (advice t).banner ≠ "" ∧
      (advice t).items.length = 3 ∧
      ((advice t).items.all fun item =>
        !(item.heading == "") && !(item.body == "")) = true := by
  intro t
  cases t <;> exact ⟨rfl, by decide, rfl, by decide⟩

/-- C10: for every outcome pair of the two Boolean comparison results
(covering every machine float, NaN and out-of-range values included, since
each float determines such a pair and NaN makes both comparisons false),
exactly one of the three branches runs, each branch yields its tier, a
value failing both comparisons lands in High rather than being rejected,
and on the rationals the abstract chain agrees with the tier function. -/
theorem tier_branches_exhaustive :
    (∀ lt03 le07 : Bool,
      (branchLow lt03 le07).toNat + (branchModerate lt03 le07).toNat +
        (branchHigh lt03 le07).toNat = 1 ∧
      (branchLow lt03 le07 = true → tierOfBranches lt03 le07 = .Low) ∧
      (branchModerate lt03 le07 = true → tierOfBranches lt03 le07 = .Moderate) ∧
      (branchHigh lt03 le07 = true → tierOfBranches lt03 le07 = .High) ∧
      (lt03 = false → le07 = false → tierOfBranches lt03 le07 = .High)) ∧
    ∀ p : ℚ, tier p = tierOfBranches (decide (p < 3/10)) (decide (p ≤ 7/10)) := by
  constructor
  · decide
  · intro p
    by_cases h1 : p < 3/10
    · simp [tier, tierOfBranches, h1]
    · by_cases h2 : p ≤ 7/10 <;> simp [tier, tierOfBranches, h1, h2]

/-- Witness for C10: when both comparisons are false (the NaN case), the
chain selects High. -/
theorem tier_branches_exhaustive_witness :
    tierOfBranches false false = .High :=
  (tier_branches_exhaustive.1 false false).2.2.2.2 rfl rfl

end COPDApp
